import Mathlib

/-
Verification of the dome fisheye projection pipeline and its
frame-timing/export discipline in the blood-child repository.

The definitions below are a shallow embedding of:
  - the fisheye fragment shader and dome pacer
    (src/unnamed/part_002, the dome projection module), and
  - the recording/export module (src/born/bornRecording.js),
together with the render-loop delta selection (src/unnamed/part_001).

Time is modelled in milliseconds as rationals (performance.now values);
shader arithmetic is modelled over the reals.
-/

namespace BloodChild

/-! ## Fisheye projector (FisheyeShader.fragmentShader, src/unnamed/part_002) -/

/-- An RGBA fragment color. -/
structure Color where
  r : ℝ
  g : ℝ
  b : ℝ
  a : ℝ

/-- `gl_FragColor = vec4(0.0, 0.0, 0.0, 1.0)` — fully opaque black. -/
noncomputable def black : Color := ⟨0, 0, 0, 1⟩

/-- GLSL `atan(y, x)` (two-argument arctangent), as the argument of `x + y*i`. -/
noncomputable def atan2 (y x : ℝ) : ℝ := Complex.arg ⟨x, y⟩

/-- `const DOME_FOV = 180` (degrees). -/
noncomputable def DOME_FOV : ℝ := 180

/-- `float phi = r * (fov / 2.0) * PI / 180.0` with `r = length(uv)`. -/
noncomputable def fisheyePhi (u v fov : ℝ) : ℝ :=
  Real.sqrt (u ^ 2 + v ^ 2) * (fov / 2) * Real.pi / 180

/-- The direction the fragment shader samples the cubemap in, for centered
coordinates `(u, v) = vUv * 2.0 - 1.0`, or `none` when `r > 1.0` (the shader
outputs black and returns without sampling).  The shader computes
`dir = (sin phi * cos theta, sin phi * sin theta, cos phi)` and samples
`sampleDir = vec3(dir.x, dir.y, -dir.z)` (remap into the Three.js cubemap
convention). -/
noncomputable def fisheyeSampleDir (u v fov : ℝ) : Option (ℝ × ℝ × ℝ) :=
  if Real.sqrt (u ^ 2 + v ^ 2) > 1 then none
  else
    let theta := atan2 v u
    let phi := fisheyePhi u v fov
    some (Real.sin phi * Real.cos theta, Real.sin phi * Real.sin theta, -Real.cos phi)

/-- The full fragment computation: black outside the unit disk, otherwise the
cubemap sample (`cube` stands for `textureCube tCube`). -/
noncomputable def fisheyeFragment (u v fov : ℝ) (cube : ℝ × ℝ × ℝ → Color) : Color :=
  match fisheyeSampleDir u v fov with
  | none => black
  | some d => cube d

/-- The viewer's forward direction: a Three.js camera looks down `-Z`. -/
noncomputable def forward : ℝ × ℝ × ℝ := (0, 0, -1)

/-- Euclidean dot product on ℝ³ (as nested pairs). -/
noncomputable def dot3 (a b : ℝ × ℝ × ℝ) : ℝ :=
  a.1 * b.1 + a.2.1 * b.2.1 + a.2.2 * b.2.2

/-! ## Module constants of the dome projection and recording modules -/

/-- `const DOME_TARGET_FPS = 30`. -/
def DOME_TARGET_FPS : ℚ := 30

/-- `const DOME_FRAME_DURATION = 1000 / DOME_TARGET_FPS` (≈ 33.33 ms). -/
def DOME_FRAME_DURATION : ℚ := 1000 / DOME_TARGET_FPS

/-- `const DOME_OUTPUT_RESOLUTION = 4096`. -/
def DOME_OUTPUT_RESOLUTION : ℕ := 4096

/-- `const RECORDING_RESOLUTION = 2048` (src/born/bornRecording.js). -/
def RECORDING_RESOLUTION : ℕ := 2048

/-- JavaScript number truncation (`Math.trunc`, rounding toward zero),
as used implicitly by the `%` remainder operator. -/
def jsTrunc (q : ℚ) : ℤ := if 0 ≤ q then ⌊q⌋ else ⌈q⌉

/-- JavaScript `%` remainder: `a % b = a - b * trunc(a / b)`. -/
def jsMod (a b : ℚ) : ℚ := a - b * (jsTrunc (a / b) : ℚ)

/-! ## Combined mutable module state

One record holding the top-level mutable state of the dome-projection module
(`DOME_MODE`, `cubeCamera`-initialized, `lastFrameTime`, `domeFrameCount`),
the renderer surface size, and the recording module state
(`isRecording`, `mediaRecorder`, `recordedChunks`, the image-sequence state),
plus the observable outputs: the list of triggered downloads, each a
`(filename, stagger delay in ms)` pair. -/
structure SysState where
  domeMode : Bool
  domeInitialized : Bool
  lastFrameTime : ℚ
  domeFrameCount : ℕ
  canvas : ℕ × ℕ
  window : ℕ × ℕ
  isRecording : Bool
  hasMediaRecorder : Bool
  recordedChunks : ℕ
  pendingFinalize : Bool
  downloads : List (String × ℕ)
  imageSequenceMode : Bool
  imageSequenceFrames : List String
  imageSequenceFrameCount : ℕ
deriving DecidableEq

/-! ## Dome mode toggle and frame pacer (src/unnamed/part_002) -/

/-- The `keydown` handler for the `D` key: flips `DOME_MODE`, initializes the
dome rig on first activation (`if (DOME_MODE && !cubeCamera) setupDomeProjection()`),
and resets frame timing: `lastFrameTime = performance.now(); domeFrameCount = 0`. -/
def toggleDomeMode (now : ℚ) (s : SysState) : SysState :=
  { s with
    domeMode := !s.domeMode
    domeInitialized := s.domeInitialized || !s.domeMode
    lastFrameTime := now
    domeFrameCount := 0 }

/-- `shouldRenderDomeFrame()` evaluated at wall-clock time `now`
(`performance.now()`): returns the produce/skip signal together with the
updated module state. -/
def shouldRenderDomeFrame (now : ℚ) (s : SysState) : Bool × SysState :=
  if s.domeMode = false then (true, s)
  else
    let elapsed := now - s.lastFrameTime
    if elapsed < DOME_FRAME_DURATION then (false, s)
    else
      (true,
        { s with
          lastFrameTime := now - jsMod elapsed DOME_FRAME_DURATION
          domeFrameCount := s.domeFrameCount + 1 })

/-- `resetDomeFrameCount()`. -/
def resetDomeFrameCount (s : SysState) : SysState := { s with domeFrameCount := 0 }

/-- `incrementDomeFrameCount()`. -/
def incrementDomeFrameCount (s : SysState) : SysState :=
  { s with domeFrameCount := s.domeFrameCount + 1 }

/-- `getDomeTargetFPS()`. -/
def getDomeTargetFPS : ℚ := DOME_TARGET_FPS

/-- Run the pacer over a list of host-callback timestamps. -/
def processCallbacks : SysState → List ℚ → SysState
  | s, [] => s
  | s, t :: ts => processCallbacks (shouldRenderDomeFrame t s).2 ts

/-! ## Render-loop delta selection (render(), src/unnamed/part_001) -/

/-- The per-frame simulation delta chosen by `render()`:
`delta = isDomeMode() ? 1 / getDomeTargetFPS() : clock.getDelta()`. -/
def renderDelta (domeModeActive : Bool) (clockDelta : ℚ) : ℚ :=
  if domeModeActive then 1 / getDomeTargetFPS else clockDelta

/-! ## Video recording (src/born/bornRecording.js) -/

/-- `` `dome_recording_${Date.now()}.webm` ``. -/
def recordingFilename (now : ℕ) : String :=
  "dome_recording_" ++ toString now ++ ".webm"

/-- `startRecording()`: re-entrant guard `if (isRecording) return`, then
resizes the canvas to `RECORDING_RESOLUTION`, creates the `MediaRecorder`
(falling back to the default codec on failure), clears `recordedChunks`,
starts the recorder, sets `isRecording = true` and calls
`resetDomeFrameCount()`.  No dome-mode check is performed inside the
function itself. -/
def startRecording (s : SysState) : SysState :=
  if s.isRecording = true then s
  else
    { s with
      canvas := (RECORDING_RESOLUTION, RECORDING_RESOLUTION)
      hasMediaRecorder := true
      recordedChunks := 0
      isRecording := true
      domeFrameCount := 0 }

/-- `stopRecording()`: re-entrant guard `if (!isRecording || !mediaRecorder) return`,
then calls `mediaRecorder.stop()` (which only queues the asynchronous
`onstop` callback) and sets `isRecording = false`.  No download and no resize
happens here. -/
def stopRecording (s : SysState) : SysState :=
  if s.isRecording = false ∨ s.hasMediaRecorder = false then s
  else { s with isRecording := false, pendingFinalize := true }

/-- The `mediaRecorder.onstop` callback (the encoder's finalize event):
concatenates `recordedChunks` into one blob, triggers a single download with
a timestamped filename, and only then restores the renderer size — to
`window.innerWidth × window.innerHeight`. -/
def finalizeRecording (now : ℕ) (s : SysState) : SysState :=
  if s.pendingFinalize = true then
    { s with
      downloads := s.downloads ++ [(recordingFilename now, 0)]
      canvas := s.window
      pendingFinalize := false }
  else s

/-- `toggleRecording()`. -/
def toggleRecording (s : SysState) : SysState :=
  if s.isRecording = true then stopRecording s else startRecording s

/-! ## Single-frame export (exportSingleFrame, src/born/bornRecording.js) -/

/-- `` `dome_frame_${res}x${res}_${Date.now()}.png` ``. -/
def singleFrameFilename (res now : ℕ) : String :=
  "dome_frame_" ++ toString res ++ "x" ++ toString res ++ "_" ++ toString now ++ ".png"

/-- `exportSingleFrame()`: guarded only by `if (!cubeCamera) return` (the dome
rig having been initialized at least once — not by `isDomeMode()`).  Resizes
to `DOME_OUTPUT_RESOLUTION`, renders one frame, downloads the PNG, and
restores the previously stored canvas size, so the net canvas size is
unchanged. -/
def exportSingleFrame (now : ℕ) (s : SysState) : SysState :=
  if s.domeInitialized = false then s
  else { s with downloads := s.downloads ++ [(singleFrameFilename DOME_OUTPUT_RESOLUTION now, 0)] }

/-! ## Image sequence (src/born/bornRecording.js) -/

/-- `String(index).padStart(6, '0')`. -/
def pad6 (n : ℕ) : String :=
  let str := toString n
  if str.length < 6 then String.mk (List.replicate (6 - str.length) '0') ++ str else str

/-- `` `frame_${String(index).padStart(6, '0')}.png` ``. -/
def seqFrameFilename (i : ℕ) : String := "frame_" ++ pad6 i ++ ".png"

/-- The `imageSequenceFrames.forEach((dataURL, index) => setTimeout(..., index * 100))`
loop of `stopImageSequence()`: one `(filename, delay)` download per stored
frame, indices in list order starting at `i`. -/
def seqDownloadsAux (i : ℕ) : List String → List (String × ℕ)
  | [] => []
  | _ :: rest => (seqFrameFilename i, i * 100) :: seqDownloadsAux (i + 1) rest

/-- `startImageSequence()`: sets the mode flag, clears the frame list and
counter, resizes to `RECORDING_RESOLUTION`.  No dome-mode check. -/
def startImageSequence (s : SysState) : SysState :=
  { s with
    imageSequenceMode := true
    imageSequenceFrames := []
    imageSequenceFrameCount := 0
    canvas := (RECORDING_RESOLUTION, RECORDING_RESOLUTION) }

/-- `stopImageSequence()`: clears the mode flag, triggers the staggered
downloads of all accumulated frames, clears the frame list, and restores the
renderer to the window size. -/
def stopImageSequence (s : SysState) : SysState :=
  { s with
    imageSequenceMode := false
    downloads := s.downloads ++ seqDownloadsAux 0 s.imageSequenceFrames
    imageSequenceFrames := []
    canvas := s.window }

/-- `captureImageSequenceFrame()` (called from the render loop after each
produced dome frame): appends the canvas data URL and increments the
counter, only while the sequence mode is active. -/
def captureImageSequenceFrame (dataURL : String) (s : SysState) : SysState :=
  if s.imageSequenceMode = false then s
  else
    { s with
      imageSequenceFrames := s.imageSequenceFrames ++ [dataURL]
      imageSequenceFrameCount := s.imageSequenceFrameCount + 1 }

/-- `toggleImageSequence()`. -/
def toggleImageSequence (s : SysState) : SysState :=
  if s.imageSequenceMode = true then stopImageSequence s else startImageSequence s

/-! ## Keyboard entry points (setupRecordingKeyboardControls) -/

/-- The `R` key handler: `if (isDomeMode()) toggleRecording(); else` log only. -/
def keydownR (s : SysState) : SysState :=
  if s.domeMode = true then toggleRecording s else s

/-- The `I` key handler: `if (isDomeMode()) exportSingleFrame(); else` log only. -/
def keydownI (now : ℕ) (s : SysState) : SysState :=
  if s.domeMode = true then exportSingleFrame now s else s

/-- The `S` key handler: `if (isDomeMode()) toggleImageSequence(); else` log only. -/
def keydownS (s : SysState) : SysState :=
  if s.domeMode = true then toggleImageSequence s else s

/-! ## Concrete states used by witnesses and counterexamples -/

/-- A baseline idle state: dome mode off, nothing recording, canvas at the
window size 800 × 600. -/
def s0 : SysState :=
  { domeMode := false
    domeInitialized := false
    lastFrameTime := 0
    domeFrameCount := 0
    canvas := (800, 600)
    window := (800, 600)
    isRecording := false
    hasMediaRecorder := false
    recordedChunks := 0
    pendingFinalize := false
    downloads := []
    imageSequenceMode := false
    imageSequenceFrames := []
    imageSequenceFrameCount := 0 }

/-- The state right after activating dome mode at time 0. -/
def sDome : SysState := toggleDomeMode 0 s0

/-- A mid-activation dome state with five frames already produced. -/
def sActive5 : SysState :=
  { s0 with domeMode := true, domeInitialized := true, domeFrameCount := 5 }

/-- A dome state whose canvas is a fullscreen 1:1 square (600 × 600) while the
window is 800 × 600 — the pre-recording surface differs from the window. -/
def sSquare : SysState :=
  { s0 with domeMode := true, domeInitialized := true, canvas := (600, 600) }

/-- A state with a video recording already in progress. -/
def sRec : SysState :=
  { s0 with domeMode := true, domeInitialized := true, isRecording := true,
            hasMediaRecorder := true, canvas := (2048, 2048) }

/-- A dome session holding exactly five captured sequence frames. -/
def sSeq5 : SysState :=
  { s0 with domeMode := true, domeInitialized := true, imageSequenceMode := true,
            imageSequenceFrames := ["a", "b", "c", "d", "e"],
            imageSequenceFrameCount := 5, canvas := (2048, 2048) }

/-- Host-callback timestamps for the pacer counterexample: dome mode is
entered at time 0, the host then stalls for 500 ms and delivers a burst of
41 callbacks spaced 1 ms apart — 41 callbacks in a 540 ms window, an average
rate of about 76 callbacks per second, far above the 30 fps target. -/
def burstCallbacks : List ℚ :=
  [500, 501, 502, 503, 504, 505, 506, 507, 508, 509, 510,
   511, 512, 513, 514, 515, 516, 517, 518, 519, 520,
   521, 522, 523, 524, 525, 526, 527, 528, 529, 530,
   531, 532, 533, 534, 535, 536, 537, 538, 539, 540]

/-- Density hypothesis for a callback sequence: starting from reference time
`prev`, consecutive timestamps are nondecreasing and at most one frame
duration apart. -/
def denseFrom : ℚ → List ℚ → Bool
  | _, [] => true
  | p, t :: ts => (decide (p ≤ t) && decide (t - p ≤ DOME_FRAME_DURATION)) && denseFrom t ts

/-! ## Theorems -/

/-- C1: for every output pixel with centered coordinates `(u, v)` outside the
unit disk (`length(u,v) > 1`) the projector outputs fully opaque black
RGBA `(0,0,0,1)` for any cubemap contents, and its sampling direction is
`none` — the omnidirectional capture is never sampled outside the unit disk. -/
theorem fisheye_outside_disk_black (u v fov : ℝ) (cube : ℝ × ℝ × ℝ → Color)
    (h : 1 < Real.sqrt (u ^ 2 + v ^ 2)) :
    fisheyeFragment u v fov cube = black ∧ fisheyeSampleDir u v fov = none := by
  have hdir : fisheyeSampleDir u v fov = none := by
    simp only [fisheyeSampleDir, gt_iff_lt, if_pos h]
  exact ⟨by simp [fisheyeFragment, hdir], hdir⟩

/-- Witness for C1 at the concrete corner pixel `(u, v) = (1, 1)`. -/
theorem fisheye_outside_disk_black_witness :
    1 < Real.sqrt ((1 : ℝ) ^ 2 + 1 ^ 2) ∧
      fisheyeFragment 1 1 180 (fun _ => ⟨1, 1, 1, 1⟩) = black := by
  have h : 1 < Real.sqrt ((1 : ℝ) ^ 2 + 1 ^ 2) := by
    rw [show ((1 : ℝ) ^ 2 + 1 ^ 2) = 2 by norm_num]
    nlinarith [Real.sq_sqrt (by norm_num : (0 : ℝ) ≤ 2), Real.sqrt_nonneg 2]
  exact ⟨h, (fisheye_outside_disk_black 1 1 180 _ h).1⟩

/-- C2: inside the unit disk the projector samples the direction
`(sin phi * cos theta, sin phi * sin theta, -cos phi)` with
`theta = atan2(v, u)` and `phi = r * (fov/2)` in radians (forward component
`cos phi`, laterals `sin phi * cos theta` and `sin phi * sin theta`, with the
final axis flip remapping into the capture convention); at `(0,0)` the sampled
direction is exactly the viewer's forward direction `(0,0,-1)`, and on the
unit circle with `fov = 180` the sampled direction is perpendicular to
forward. -/
theorem fisheye_sample_direction (u v fov : ℝ) (h : u ^ 2 + v ^ 2 ≤ 1) :
    fisheyeSampleDir u v fov =
      some (Real.sin (fisheyePhi u v fov) * Real.cos (atan2 v u),
            Real.sin (fisheyePhi u v fov) * Real.sin (atan2 v u),
            -Real.cos (fisheyePhi u v fov)) ∧
    (u = 0 ∧ v = 0 → fisheyeSampleDir u v fov = some forward) ∧
    (u ^ 2 + v ^ 2 = 1 → fov = 180 →
      ∀ d, fisheyeSampleDir u v fov = some d → dot3 d forward = 0) := by
  have hr : ¬ (1 < Real.sqrt (u ^ 2 + v ^ 2)) := not_lt.2 (Real.sqrt_le_one.2 h)
  have heq : fisheyeSampleDir u v fov =
      some (Real.sin (fisheyePhi u v fov) * Real.cos (atan2 v u),
            Real.sin (fisheyePhi u v fov) * Real.sin (atan2 v u),
            -Real.cos (fisheyePhi u v fov)) := by
    simp only [fisheyeSampleDir, gt_iff_lt, if_neg hr]
  refine ⟨heq, ?_, ?_⟩
  · rintro ⟨rfl, rfl⟩
    have hphi : fisheyePhi 0 0 fov = 0 := by
      simp [fisheyePhi]
    rw [heq, hphi]
    simp [forward]
  · intro h1 h180 d hd
    have hphi : fisheyePhi u v fov = Real.pi / 2 := by
      rw [fisheyePhi, h1, h180, Real.sqrt_one]
      ring
    rw [heq] at hd
    obtain rfl : d =
        (Real.sin (fisheyePhi u v fov) * Real.cos (atan2 v u),
         Real.sin (fisheyePhi u v fov) * Real.sin (atan2 v u),
         -Real.cos (fisheyePhi u v fov)) := (Option.some_injective _ hd).symm
    simp [dot3, forward, hphi, Real.cos_pi_div_two]

/-- Witness for C2 at the concrete center pixel `(u, v) = (0, 0)`. -/
theorem fisheye_sample_direction_witness :
    ((0 : ℝ) ^ 2 + 0 ^ 2 ≤ 1) ∧ fisheyeSampleDir 0 0 180 = some forward :=
  ⟨by norm_num, (fisheye_sample_direction 0 0 180 (by norm_num)).2.1 ⟨rfl, rfl⟩⟩

/-- C5: in dome mode the simulation delta consumed by `render()` is the fixed
value `1 / targetFPS` (independent of the measured host delta), and outside
dome mode it is the measured `clock.getDelta()` value. -/
theorem dome_fixed_delta :
    (∀ d : ℚ, renderDelta true d = 1 / getDomeTargetFPS) ∧
    (∀ d : ℚ, renderDelta false d = d) ∧
    getDomeTargetFPS = 30 :=
  ⟨fun _ => rfl, fun _ => rfl, rfl⟩

/-- C4 (amended): entering or re-entering dome mode resets `lastFrameTime` to
the current time and `frameCount` to 0; the first subsequent host callback
after reactivation signals produce if and only if at least one frame duration
has elapsed since the reactivation. -/
theorem dome_toggle_reset (now t : ℚ) (s : SysState) (h : s.domeMode = false) :
    (toggleDomeMode now s).domeMode = true ∧
    (toggleDomeMode now s).lastFrameTime = now ∧
    (toggleDomeMode now s).domeFrameCount = 0 ∧
    ((shouldRenderDomeFrame t (toggleDomeMode now s)).1 = true ↔
      DOME_FRAME_DURATION ≤ t - now) := by
  refine ⟨by simp [toggleDomeMode, h], rfl, rfl, ?_⟩
  simp only [shouldRenderDomeFrame, toggleDomeMode, h]
  by_cases hc : t - now < DOME_FRAME_DURATION
  · simp [hc, not_le.2 hc]
  · simp [hc, not_lt.1 hc]

/-- Witness for C4 (amended): activating dome mode at time 0, a callback at
50 ms produces, since 50 ms exceeds the 33.33 ms frame duration. -/
theorem dome_toggle_reset_witness :
    s0.domeMode = false ∧
      ((shouldRenderDomeFrame 50 (toggleDomeMode 0 s0)).1 = true ↔
        DOME_FRAME_DURATION ≤ (50 : ℚ) - 0) :=
  ⟨rfl, (dome_toggle_reset 0 50 s0 rfl).2.2.2⟩

/-- Counterexample to C4 as stated: deactivate dome mode at 5 ms, reactivate
at 8 ms; the first subsequent host callback, at 10 ms, signals skip (`false`),
not produce — because only 2 ms have elapsed since reactivation. -/
theorem dome_reactivation_counterexample :
    sDome.domeMode = true ∧
    (toggleDomeMode 5 sDome).domeMode = false ∧
    (toggleDomeMode 8 (toggleDomeMode 5 sDome)).domeMode = true ∧
    (shouldRenderDomeFrame 10 (toggleDomeMode 8 (toggleDomeMode 5 sDome))).1 = false := by
  refine ⟨rfl, rfl, rfl, ?_⟩
  norm_num [shouldRenderDomeFrame, toggleDomeMode, sDome, s0,
    DOME_FRAME_DURATION, DOME_TARGET_FPS]

/-- The pacer never decreases the frame counter over any callback sequence. -/
theorem processCallbacks_count_mono (ts : List ℚ) :
    ∀ s : SysState, s.domeFrameCount ≤ (processCallbacks s ts).domeFrameCount := by
  induction ts with
  | nil => intro s; exact le_refl _
  | cons t ts ih =>
    intro s
    refine le_trans ?_ (ih (shouldRenderDomeFrame t s).2)
    by_cases h1 : s.domeMode = false
    · simp [shouldRenderDomeFrame, h1]
    · simp only [shouldRenderDomeFrame, if_neg h1]
      by_cases h2 : t - s.lastFrameTime < DOME_FRAME_DURATION
      · simp [h2]
      · simp [h2]

/-- C6 (amended): the pacer's frame counter is monotonically non-decreasing
under host callbacks and explicit increments; it is reset to 0 on dome-mode
activation/reactivation, and additionally by `resetDomeFrameCount` — which
`startRecording` invokes, so starting a video recording also zeroes the
counter mid-activation. -/
theorem frame_count_monotonic (s : SysState) (now : ℚ) (ts : List ℚ)
    (hrec : s.isRecording = false) :
    s.domeFrameCount ≤ ((shouldRenderDomeFrame now s).2).domeFrameCount ∧
    s.domeFrameCount ≤ (processCallbacks s ts).domeFrameCount ∧
    (incrementDomeFrameCount s).domeFrameCount = s.domeFrameCount + 1 ∧
    (toggleDomeMode now s).domeFrameCount = 0 ∧
    (resetDomeFrameCount s).domeFrameCount = 0 ∧
    (startRecording s).domeFrameCount = 0 := by
  refine ⟨?_, processCallbacks_count_mono ts s, rfl, rfl, rfl, ?_⟩
  · have := processCallbacks_count_mono [now] s
    simpa [processCallbacks] using this
  · simp [startRecording, hrec]

/-- Witness for C6 (amended) on a concrete state and callback sequence. -/
theorem frame_count_monotonic_witness :
    s0.isRecording = false ∧
      s0.domeFrameCount ≤ (processCallbacks s0 [10, 50]).domeFrameCount :=
  ⟨rfl, (frame_count_monotonic s0 0 [10, 50] rfl).2.1⟩

/-- Counterexample to C6 as stated: with dome mode active and five frames
counted, calling `startRecording` (an operation that is not a dome-mode
activation/reactivation) sets the counter back to 0 mid-activation. -/
theorem frame_count_reset_counterexample :
    sActive5.domeMode = true ∧ sActive5.isRecording = false ∧
    sActive5.domeFrameCount = 5 ∧
    (startRecording sActive5).domeMode = true ∧
    (startRecording sActive5).domeFrameCount = 0 :=
  ⟨rfl, rfl, rfl, rfl, rfl⟩

/-- C7 (amended): `startRecording()` followed by `stopRecording()` triggers no
download and no resize at stop time; the single timestamped download and the
surface restoration are sequenced on the encoder's finalize (`onstop`) event,
which sets the surface to the current window dimensions — equal to the
pre-recording dimensions exactly when the surface was at window size before
recording started. -/
theorem record_stop_finalize (s : SysState) (t : ℕ)
    (h1 : s.isRecording = false) (h2 : s.pendingFinalize = false) :
    (stopRecording (startRecording s)).downloads = s.downloads ∧
    (stopRecording (startRecording s)).canvas =
      (RECORDING_RESOLUTION, RECORDING_RESOLUTION) ∧
    (finalizeRecording t (stopRecording (startRecording s))).downloads
      = s.downloads ++ [(recordingFilename t, 0)] ∧
    (finalizeRecording t (stopRecording (startRecording s))).canvas = s.window ∧
    (s.canvas = s.window →
      (finalizeRecording t (stopRecording (startRecording s))).canvas = s.canvas) := by
  refine ⟨?_, ?_, ?_, ?_, ?_⟩ <;>
    simp [startRecording, stopRecording, finalizeRecording, h1, h2]
  intro h
  rw [h]

/-- Witness for C7 (amended) from the baseline idle state. -/
theorem record_stop_finalize_witness :
    s0.isRecording = false ∧ s0.pendingFinalize = false ∧
    (finalizeRecording 123 (stopRecording (startRecording s0))).downloads
      = s0.downloads ++ [(recordingFilename 123, 0)] :=
  ⟨rfl, rfl, (record_stop_finalize s0 123 rfl rfl).2.2.1⟩

/-- Counterexample to C7 as stated: when the pre-recording surface (a 600×600
fullscreen square) differs from the 800×600 window, the stop path restores
the surface to the window size, not to its pre-recording dimensions — while
still yielding exactly one timestamped download. -/
theorem record_restore_counterexample :
    sSquare.canvas = (600, 600) ∧ sSquare.window = (800, 600) ∧
    (finalizeRecording 123 (stopRecording (startRecording sSquare))).canvas = (800, 600) ∧
    (finalizeRecording 123 (stopRecording (startRecording sSquare))).canvas ≠ sSquare.canvas ∧
    (finalizeRecording 123 (stopRecording (startRecording sSquare))).downloads
      = [("dome_recording_123.webm", 0)] := by
  refine ⟨rfl, rfl, rfl, by decide, rfl⟩

/-- C8 (amended): the keyboard handlers for `R`, `I` and `S` are reported
no-ops while dome mode is inactive — they change no state and trigger no
download.  The underlying exported functions themselves do not check dome
mode; `exportSingleFrame` alone is a no-op when the dome rig was never
initialized. -/
theorem export_keyboard_guard (s : SysState) (t : ℕ) (h : s.domeMode = false) :
    keydownR s = s ∧ keydownI t s = s ∧ keydownS s = s ∧
    (s.domeInitialized = false → exportSingleFrame t s = s) := by
  refine ⟨by simp [keydownR, h], by simp [keydownI, h], by simp [keydownS, h], ?_⟩
  intro h2
  simp [exportSingleFrame, h2]

/-- Witness for C8 (amended) at the baseline idle state. -/
theorem export_keyboard_guard_witness :
    s0.domeMode = false ∧ keydownR s0 = s0 ∧ keydownS s0 = s0 :=
  ⟨rfl, (export_keyboard_guard s0 7 rfl).1, (export_keyboard_guard s0 7 rfl).2.2.1⟩

/-- Counterexample to C8 as stated: calling the entry point
`startImageSequence` directly while dome mode is inactive is not a no-op —
it flips the sequence mode flag on and resizes the surface to the recording
resolution. -/
theorem export_noop_counterexample :
    s0.domeMode = false ∧ s0.imageSequenceMode = false ∧
    s0.canvas = (800, 600) ∧
    (startImageSequence s0).imageSequenceMode = true ∧
    (startImageSequence s0).canvas = (2048, 2048) :=
  ⟨rfl, rfl, rfl, rfl, rfl⟩

/-- C10: re-entrant recorder calls are no-ops: `startRecording` while already
recording and `stopRecording` while not recording leave the state entirely
unchanged, so at most one video recording session exists at a time. -/
theorem recorder_reentrant_noop (s : SysState) :
    (s.isRecording = true → startRecording s = s) ∧
    (s.isRecording = false → stopRecording s = s) := by
  constructor
  · intro h; simp [startRecording, h]
  · intro h; simp [stopRecording, h]

/-- Witness for C10 on concrete states. -/
theorem recorder_reentrant_noop_witness :
    startRecording sRec = sRec ∧ stopRecording s0 = s0 :=
  ⟨(recorder_reentrant_noop sRec).1 rfl, (recorder_reentrant_noop s0).2 rfl⟩

/-- The per-frame staggered-download loop yields the indexed frame filenames
`frame_<i+k (0-padded to 6)>.png` with delays `(i+k) * 100` ms, in order. -/
theorem seqDownloadsAux_eq_range (l : List String) :
    ∀ i, seqDownloadsAux i l
      = (List.range l.length).map (fun k => (seqFrameFilename (i + k), (i + k) * 100)) := by
  induction l with
  | nil => intro i; simp [seqDownloadsAux]
  | cons a l ih =>
    intro i
    rw [seqDownloadsAux, List.length_cons, List.range_succ_eq_map, List.map_cons,
      List.map_map, ih (i + 1)]
    refine congrArg₂ _ (by simp) ?_
    refine List.map_congr_left fun k _ => ?_
    have : i + 1 + k = i + Nat.succ k := by omega
    simp [Function.comp, this]

/-- C9: a session that captured exactly five frames downloads, on stop,
exactly the files `frame_000000.png` … `frame_000004.png` (indices in produce
order, zero-padded to six digits, gap-free), with strictly increasing stagger
delays of 0, 100, 200, 300, 400 ms, after which the in-memory frame list is
cleared. -/
theorem image_sequence_five_frames (s : SysState)
    (h : s.imageSequenceFrames.length = 5) :
    (stopImageSequence s).downloads
      = s.downloads ++
        [("frame_000000.png", 0), ("frame_000001.png", 100), ("frame_000002.png", 200),
         ("frame_000003.png", 300), ("frame_000004.png", 400)] ∧
    List.Pairwise (fun a b => a.2 < b.2)
      (((stopImageSequence s).downloads).drop s.downloads.length) ∧
    (stopImageSequence s).imageSequenceFrames = [] ∧
    (stopImageSequence s).imageSequenceMode = false := by
  have hseq : seqDownloadsAux 0 s.imageSequenceFrames
      = [("frame_000000.png", 0), ("frame_000001.png", 100), ("frame_000002.png", 200),
         ("frame_000003.png", 300), ("frame_000004.png", 400)] := by
    rw [seqDownloadsAux_eq_range, h]
    rfl
  have hdl : (stopImageSequence s).downloads
      = s.downloads ++
        [("frame_000000.png", 0), ("frame_000001.png", 100), ("frame_000002.png", 200),
         ("frame_000003.png", 300), ("frame_000004.png", 400)] := by
    simp [stopImageSequence, hseq]
  refine ⟨hdl, ?_, rfl, rfl⟩
  rw [hdl, List.drop_left]
  decide

/-- Witness for C9 on a concrete five-frame session. -/
theorem image_sequence_five_frames_witness :
    sSeq5.imageSequenceFrames.length = 5 ∧
    (stopImageSequence sSeq5).downloads
      = sSeq5.downloads ++
        [("frame_000000.png", 0), ("frame_000001.png", 100), ("frame_000002.png", 200),
         ("frame_000003.png", 300), ("frame_000004.png", 400)] :=
  ⟨rfl, (image_sequence_five_frames sSeq5 rfl).1⟩

/-- The dome frame duration `1000/30` ms is positive. -/
theorem frame_duration_pos : (0 : ℚ) < DOME_FRAME_DURATION := by
  norm_num [DOME_FRAME_DURATION, DOME_TARGET_FPS]

/-- For an elapsed time in `[frameDuration, 2*frameDuration)`, the JavaScript
remainder subtracts exactly one frame duration. -/
theorem jsMod_of_lt_two (a : ℚ) (h1 : DOME_FRAME_DURATION ≤ a)
    (h2 : a < 2 * DOME_FRAME_DURATION) :
    jsMod a DOME_FRAME_DURATION = a - DOME_FRAME_DURATION := by
  have hD := frame_duration_pos
  have hq1 : (1 : ℚ) ≤ a / DOME_FRAME_DURATION := (one_le_div hD).2 h1
  have hq2 : a / DOME_FRAME_DURATION < 2 := by
    rw [div_lt_iff₀ hD]
    linarith
  have h0 : (0 : ℚ) ≤ a / DOME_FRAME_DURATION := le_trans zero_le_one hq1
  have hfl : ⌊a / DOME_FRAME_DURATION⌋ = 1 := by
    rw [Int.floor_eq_iff]
    constructor
    · exact_mod_cast hq1
    · push_cast
      linarith
  rw [jsMod, jsTrunc, if_pos h0, hfl]
  push_cast
  ring

/-- Unfolding the density hypothesis at a cons cell. -/
theorem denseFrom_cons {p t : ℚ} {ts : List ℚ} (h : denseFrom p (t :: ts) = true) :
    p ≤ t ∧ t - p ≤ DOME_FRAME_DURATION ∧ denseFrom t ts = true := by
  simp only [denseFrom, Bool.and_eq_true, decide_eq_true_eq] at h
  exact ⟨h.1.1, h.1.2, h.2⟩

/-- A dense callback sequence never goes back before its reference time. -/
theorem denseFrom_le_getLastD : ∀ (ts : List ℚ) (p : ℚ),
    denseFrom p ts = true → p ≤ ts.getLastD p := by
  intro ts
  induction ts with
  | nil => intro p _; simp
  | cons t ts ih =>
    intro p h
    obtain ⟨h1, _, h3⟩ := denseFrom_cons h
    rw [List.getLastD_cons]
    exact le_trans h1 (ih t h3)

/-- Core counting invariant of the phase-preserving pacer: starting from any
dome-active state whose last reference callback `prev` lies within one frame
duration of `lastFrameTime`, running a dense callback sequence produces
exactly `⌊(T_last - lastFrameTime) / frameDuration⌋` frames. -/
theorem pacerCountAux : ∀ (ts : List ℚ) (s : SysState) (prev : ℚ),
    s.domeMode = true →
    0 ≤ prev - s.lastFrameTime →
    prev - s.lastFrameTime < DOME_FRAME_DURATION →
    denseFrom prev ts = true →
    (processCallbacks s ts).domeFrameCount
      = s.domeFrameCount
        + (⌊(ts.getLastD prev - s.lastFrameTime) / DOME_FRAME_DURATION⌋).toNat := by
  intro ts
  induction ts with
  | nil =>
    intro s prev _ h0 h1 _
    have hfl : ⌊(prev - s.lastFrameTime) / DOME_FRAME_DURATION⌋ = 0 := by
      rw [Int.floor_eq_zero_iff]
      constructor
      · exact div_nonneg h0 (le_of_lt frame_duration_pos)
      · rw [div_lt_one frame_duration_pos]
        exact h1
    simp [processCallbacks, List.getLastD, hfl]
  | cons t ts ih =>
    intro s prev hmode h0 h1 hd
    obtain ⟨hpt, hgap, hd'⟩ := denseFrom_cons hd
    have hD := frame_duration_pos
    rw [List.getLastD_cons]
    by_cases hc : t - s.lastFrameTime < DOME_FRAME_DURATION
    · have hstep : (shouldRenderDomeFrame t s).2 = s := by
        simp [shouldRenderDomeFrame, hmode, hc]
      simp only [processCallbacks]
      rw [hstep]
      exact ih s t hmode (by linarith) hc hd'
    · push_neg at hc
      have helapsed2 : t - s.lastFrameTime < 2 * DOME_FRAME_DURATION := by linarith
      have hmod : jsMod (t - s.lastFrameTime) DOME_FRAME_DURATION
          = t - s.lastFrameTime - DOME_FRAME_DURATION := jsMod_of_lt_two _ hc helapsed2
      have hstep : (shouldRenderDomeFrame t s).2
          = { s with
              lastFrameTime := s.lastFrameTime + DOME_FRAME_DURATION
              domeFrameCount := s.domeFrameCount + 1 } := by
        simp only [shouldRenderDomeFrame]
        rw [if_neg (by simp [hmode]), if_neg (not_lt.2 hc)]
        rw [hmod]
        ring_nf
      simp only [processCallbacks]
      rw [hstep]
      have hrec := ih
        { s with
          lastFrameTime := s.lastFrameTime + DOME_FRAME_DURATION
          domeFrameCount := s.domeFrameCount + 1 }
        t (by simp [hmode]) (by simp; linarith) (by simp; linarith) hd'
      rw [hrec]
      simp only
      have hLt : t ≤ ts.getLastD t := denseFrom_le_getLastD ts t hd'
      have hdiv : (ts.getLastD t - (s.lastFrameTime + DOME_FRAME_DURATION)) / DOME_FRAME_DURATION
          = (ts.getLastD t - s.lastFrameTime) / DOME_FRAME_DURATION - 1 := by
        field_simp
        ring
      have hfloor : ⌊(ts.getLastD t - (s.lastFrameTime + DOME_FRAME_DURATION)) / DOME_FRAME_DURATION⌋
          = ⌊(ts.getLastD t - s.lastFrameTime) / DOME_FRAME_DURATION⌋ - 1 := by
        rw [hdiv, Int.floor_sub_one]
      have hge1 : 1 ≤ ⌊(ts.getLastD t - s.lastFrameTime) / DOME_FRAME_DURATION⌋ := by
        rw [Int.le_floor]
        push_cast
        rw [le_div_iff₀ hD]
        linarith
      omega

/-- C3 (amended): on a host callback at time `T` with dome mode active and
`elapsed = T - lastFrameTime`: if `elapsed < frameDuration` the pacer signals
skip and changes no state; otherwise it signals produce, sets
`lastFrameTime = T - (elapsed mod frameDuration)` (phase-preserving) and
increments `frameCount`.  Consequently, over any window whose host callbacks
are spaced at most one frame duration apart, the number of produce signals is
exactly `⌊(T_last - lastFrameTime₀) / frameDuration⌋` — i.e. `targetFPS` times
the window length in seconds, within rounding. -/
theorem pacer_callback_spec (now : ℚ) (s : SysState) (hmode : s.domeMode = true) :
    (now - s.lastFrameTime < DOME_FRAME_DURATION →
      shouldRenderDomeFrame now s = (false, s)) ∧
    (DOME_FRAME_DURATION ≤ now - s.lastFrameTime →
      shouldRenderDomeFrame now s =
        (true,
          { s with
            lastFrameTime := now - jsMod (now - s.lastFrameTime) DOME_FRAME_DURATION
            domeFrameCount := s.domeFrameCount + 1 })) ∧
    (∀ ts prev,
      0 ≤ prev - s.lastFrameTime →
      prev - s.lastFrameTime < DOME_FRAME_DURATION →
      denseFrom prev ts = true →
      (processCallbacks s ts).domeFrameCount
        = s.domeFrameCount
          + (⌊(ts.getLastD prev - s.lastFrameTime) / DOME_FRAME_DURATION⌋).toNat) := by
  refine ⟨?_, ?_, fun ts prev h0 h1 hd => pacerCountAux ts s prev hmode h0 h1 hd⟩
  · intro h
    simp [shouldRenderDomeFrame, hmode, h]
  · intro h
    simp only [shouldRenderDomeFrame]
    rw [if_neg (by simp [hmode]), if_neg (not_lt.2 h)]

/-- Witness for C3 (amended): dome mode entered at time 0, callbacks at 30 ms
and 60 ms (each gap below the 33.33 ms frame duration); the produce count is
`⌊60 / 33.33⌋ = 1`. -/
theorem pacer_callback_spec_witness :
    sDome.domeMode = true ∧ denseFrom 0 [30, 60] = true ∧
    (processCallbacks sDome [30, 60]).domeFrameCount
      = sDome.domeFrameCount
        + (⌊(([30, 60] : List ℚ).getLastD 0 - sDome.lastFrameTime)
            / DOME_FRAME_DURATION⌋).toNat := by
  have hd : denseFrom 0 [30, 60] = true := by
    norm_num [denseFrom, DOME_FRAME_DURATION, DOME_TARGET_FPS]
  refine ⟨rfl, hd, (pacer_callback_spec 0 sDome rfl).2.2 [30, 60] 0 ?_ ?_ hd⟩
  · norm_num [sDome, toggleDomeMode, s0]
  · norm_num [sDome, toggleDomeMode, s0, DOME_FRAME_DURATION, DOME_TARGET_FPS]

/-- Counterexample to C3's convergence clause as stated: dome mode is entered
at time 0; 41 callbacks follow in a 540 ms window (about 76 per second,
averaging far faster than the 30 fps target), but because they arrive as one
burst after a 500 ms stall, only 2 produce signals are emitted — not
`targetFPS × windowSeconds ≈ 16.2` within rounding. -/
theorem pacer_convergence_counterexample :
    sDome.domeMode = true ∧ sDome.lastFrameTime = 0 ∧
    (processCallbacks sDome burstCallbacks).domeFrameCount = 2 ∧
    (41 : ℚ) * 1000 > 30 * 540 ∧
    ((2 : ℚ) + 1) * 1000 < 30 * 540 := by
  refine ⟨rfl, rfl, ?_, by norm_num, by norm_num⟩
  norm_num [processCallbacks, shouldRenderDomeFrame, jsMod, jsTrunc, burstCallbacks,
    sDome, toggleDomeMode, s0, DOME_FRAME_DURATION, DOME_TARGET_FPS]

end BloodChild
